import Mathlib

/-!
Verification of the chat-over-kafka native binding layer
(`src/app/src/main/cpp/nativelib.cpp`) against its design specification.

The C++ source is a JNI binding over librdkafka.  We embed each JNI entry
point as a pure Lean function.  Calls into the external broker library
(`rd_kafka_conf_set`, `rd_kafka_producev`, `rd_kafka_new`,
`rd_kafka_subscribe`, `rd_kafka_consumer_poll`, `rd_kafka_err2str`, ...)
are modelled as oracle parameters of the embedded functions: the embedding
is therefore universally quantified over every possible behaviour of the
broker library, while the control flow (validation order, which property
applications are checked, which resources are released on which path, what
is thrown and what is returned) is translated line by line from the source.

Throw sites are classified by their source location into the spec's error
taxonomy: fixed-string argument checks are `validationError`,
`rd_kafka_conf_set` rejections are `configError`, `rd_kafka_new` failures
are `connectionError`, and broker-reported errors (`rd_kafka_err2str`,
`rd_kafka_message_errstr`) are `brokerError`.  In the JNI code all of these
are `RuntimeException`s; the constructor records which source path threw.
-/

namespace ChatOverKafka

/-- Result of an `rd_kafka_conf_set` call: `RD_KAFKA_CONF_OK` or a rejection
carrying the library's `errstr` text. -/
inductive ConfResult
  | ok
  | rejected (msg : String)
deriving DecidableEq, Repr

/-- Outcome of a JNI entry point, classifying each throw site of the source
by the spec's error taxonomy.  `ok` means the call returned normally. -/
inductive KOutcome
  | ok
  | validationError (msg : String)
  | configError (msg : String)
  | brokerError (msg : String)
  | connectionError (msg : String)
deriving DecidableEq, Repr

/-- Observable trace of a handle-creation call: its outcome, the ordered
list of configuration properties whose `rd_kafka_conf_set` application was
reached, and whether the `rd_kafka_conf_t` object was destroyed on the
taken path before returning. -/
structure CreateTrace where
  outcome : KOutcome
  attempted : List String
  confDestroyed : Bool
deriving DecidableEq, Repr

/-- Configuration oracle that accepts every property. -/
def allOk : String → Option String → ConfResult := fun _ _ => ConfResult.ok

/-- Model of `rd_kafka_err2str` used in closed (concrete-input) theorems;
the general theorems quantify over an arbitrary `err2str` function. -/
def err2strM : Int → String := fun e => "kafka error " ++ toString e

/-- Embedding of `Java_..._RdKafka_createProducerMTLS`
(`nativelib.cpp` lines 276-334).  The four path strings are wrapped by
`JniStringWrapper`, which yields a null C string when the jstring is null,
so each is an `Option String` here.  The five checked property applications
abort on rejection (the `unique_ptr` destructor destroys the conf); the
`acks` application's result is discarded (line 320); the log and
delivery-report callbacks are then registered and `rd_kafka_new` is called
with ownership of the conf released to it. -/
def createProducerMTLS (brokers caCert clientCert clientKey : Option String)
    (confSet : String → Option String → ConfResult)
    (newOk : Bool) (newErrstr : String) : CreateTrace :=
  match confSet "bootstrap.servers" brokers with
  | .rejected m => ⟨.configError m, ["bootstrap.servers"], true⟩
  | .ok =>
  match confSet "security.protocol" (some "SSL") with
  | .rejected m => ⟨.configError m,
      ["bootstrap.servers", "security.protocol"], true⟩
  | .ok =>
  match confSet "ssl.ca.location" caCert with
  | .rejected m => ⟨.configError m,
      ["bootstrap.servers", "security.protocol", "ssl.ca.location"], true⟩
  | .ok =>
  match confSet "ssl.certificate.location" clientCert with
  | .rejected m => ⟨.configError m,
      ["bootstrap.servers", "security.protocol", "ssl.ca.location",
       "ssl.certificate.location"], true⟩
  | .ok =>
  match confSet "ssl.key.location" clientKey with
  | .rejected m => ⟨.configError m,
      ["bootstrap.servers", "security.protocol", "ssl.ca.location",
       "ssl.certificate.location", "ssl.key.location"], true⟩
  | .ok =>
    -- line 320: the result of applying "acks" = "all" is discarded
    let _ackResult := confSet "acks" (some "all")
    let att := ["bootstrap.servers", "security.protocol", "ssl.ca.location",
                "ssl.certificate.location", "ssl.key.location", "acks"]
    -- conf ownership is released to rd_kafka_new (conf_ptr.release());
    -- on rd_kafka_new failure nothing destroys the conf on this path
    if newOk then ⟨.ok, att, false⟩
    else ⟨.connectionError newErrstr, att, false⟩

/-- Property name at position `i` of the producer configuration sequence. -/
def producerPropName : Nat → String
  | 0 => "bootstrap.servers"
  | 1 => "security.protocol"
  | 2 => "ssl.ca.location"
  | 3 => "ssl.certificate.location"
  | _ => "ssl.key.location"

/-- Property value at position `i` of the producer configuration sequence. -/
def producerPropVal (brokers caCert clientCert clientKey : Option String) :
    Nat → Option String
  | 0 => brokers
  | 1 => some "SSL"
  | 2 => caCert
  | 3 => clientCert
  | _ => clientKey

/-- Configuration oracle that rejects exactly the `acks` property. -/
def rejectAcks : String → Option String → ConfResult :=
  fun k _ => if k = "acks" then ConfResult.rejected "acks rejected" else ConfResult.ok

/-- Embedding of the checked configuration chain of
`Java_..._RdKafka_createConsumerMTLS` (`nativelib.cpp` lines 136-246),
reached after the null-argument checks.  Seven property applications, each
checked, each rejection destroying the conf; `rd_kafka_new` failure also
destroys the conf (lines 240-243). -/
def consumerConfChain (b g ca cert key offs : String)
    (confSet : String → Option String → ConfResult)
    (newOk : Bool) (newErrstr : String) : CreateTrace :=
  match confSet "bootstrap.servers" (some b) with
  | .rejected m => ⟨.configError m, ["bootstrap.servers"], true⟩
  | .ok =>
  match confSet "group.id" (some g) with
  | .rejected m => ⟨.configError m, ["bootstrap.servers", "group.id"], true⟩
  | .ok =>
  match confSet "security.protocol" (some "SSL") with
  | .rejected m => ⟨.configError m,
      ["bootstrap.servers", "group.id", "security.protocol"], true⟩
  | .ok =>
  match confSet "ssl.ca.location" (some ca) with
  | .rejected m => ⟨.configError m,
      ["bootstrap.servers", "group.id", "security.protocol",
       "ssl.ca.location"], true⟩
  | .ok =>
  match confSet "ssl.certificate.location" (some cert) with
  | .rejected m => ⟨.configError m,
      ["bootstrap.servers", "group.id", "security.protocol",
       "ssl.ca.location", "ssl.certificate.location"], true⟩
  | .ok =>
  match confSet "ssl.key.location" (some key) with
  | .rejected m => ⟨.configError m,
      ["bootstrap.servers", "group.id", "security.protocol",
       "ssl.ca.location", "ssl.certificate.location",
       "ssl.key.location"], true⟩
  | .ok =>
  match confSet "auto.offset.reset" (some offs) with
  | .rejected m => ⟨.configError m,
      ["bootstrap.servers", "group.id", "security.protocol",
       "ssl.ca.location", "ssl.certificate.location", "ssl.key.location",
       "auto.offset.reset"], true⟩
  | .ok =>
    let att := ["bootstrap.servers", "group.id", "security.protocol",
                "ssl.ca.location", "ssl.certificate.location",
                "ssl.key.location", "auto.offset.reset"]
    if newOk then ⟨.ok, att, false⟩
    else ⟨.connectionError newErrstr, att, true⟩

/-- Embedding of `Java_..._RdKafka_createConsumerMTLS`
(`nativelib.cpp` lines 94-247).  Null-argument checks in source order:
brokers (line 105), groupId (line 109), then the three certificate paths
together (line 113); a null `offsetStrategy` defaults to `"latest"`
(line 123).  Only then is the configuration chain entered. -/
def createConsumerMTLS
    (brokers groupId caCert clientCert clientKey offsetStrategy : Option String)
    (confSet : String → Option String → ConfResult)
    (newOk : Bool) (newErrstr : String) : CreateTrace :=
  match brokers with
  | none => ⟨.validationError "Brokers cannot be null", [], false⟩
  | some b =>
    match groupId with
    | none => ⟨.validationError "Group ID cannot be null", [], false⟩
    | some g =>
      match caCert, clientCert, clientKey with
      | some ca, some cert, some key =>
          consumerConfChain b g ca cert key (offsetStrategy.getD "latest")
            confSet newOk newErrstr
      | _, _, _ =>
          ⟨.validationError "Certificate paths cannot be null", [], false⟩

/-- Request handed to `rd_kafka_producev`: topic, optional explicit
partition (`RD_KAFKA_V_PARTITION`, absent in the plain variant), optional
key bytes (the `RD_KAFKA_V_KEY` varargs entry is only emitted when the
caller passed a non-null key), and the value bytes. -/
structure ProduceReq where
  topic : String
  partition : Option Int
  key : Option (List Nat)
  value : List Nat
deriving DecidableEq, Repr

/-- Result recorded by the delivery callback into the `DeliveryState`
waiter: the broker-reported error code, partition and offset of the
delivered (or failed) message (`delivery_report_cb`, lines 258-273). -/
structure DeliveredMsg where
  err : Int
  partition : Int
  offset : Int
deriving DecidableEq, Repr

/-- Result of a produce call: the constructed `RecordMetadata` on success,
or the classified throw. -/
inductive ProduceResult
  | receipt (partition offset : Int)
  | validationError (msg : String)
  | brokerError (msg : String)
deriving DecidableEq, Repr

/-- Embedding of `Java_..._RdKafka_produceMessageBytes`
(`nativelib.cpp` lines 335-445).  `enqueue` is the oracle for
`rd_kafka_producev` (0 = `RD_KAFKA_RESP_ERR_NO_ERROR`); `delivery` is the
result the delivery callback eventually records into the stack-local
`DeliveryState` once the blocking wait loop observes completion.  JNI
string/array extraction is modelled as succeeding (its failure paths are
marshaling errors outside the claims).  The enqueue request carries no
explicit partition. -/
def produceMessageBytes (err2str : Int → String) (producerPtr : Nat)
    (jtopic : Option String) (jkey : Option (List Nat))
    (jvalue : Option (List Nat))
    (enqueue : ProduceReq → Int) (delivery : DeliveredMsg) : ProduceResult :=
  match producerPtr, jtopic, jvalue with
  | 0, _, _ => .validationError "Invalid arguments"
  | _, none, _ => .validationError "Invalid arguments"
  | _, _, none => .validationError "Invalid arguments"
  | _ + 1, some topic, some value =>
    let err := enqueue ⟨topic, none, jkey, value⟩
    if err ≠ 0 then
      -- enqueue rejected: throw rd_kafka_err2str(err); the waiter goes out
      -- of scope without ever completing (delivery is never consulted)
      .brokerError (err2str err)
    else if delivery.err ≠ 0 then .brokerError (err2str delivery.err)
    else .receipt delivery.partition delivery.offset

/-- Embedding of `Java_..._RdKafka_produceMessageBytesToPartition`
(`nativelib.cpp` lines 447-560): identical source text except that the
`rd_kafka_producev` varargs include `RD_KAFKA_V_PARTITION(jpartition)`. -/
def produceMessageBytesToPartition (err2str : Int → String)
    (producerPtr : Nat) (jtopic : Option String) (jpartition : Int)
    (jkey : Option (List Nat)) (jvalue : Option (List Nat))
    (enqueue : ProduceReq → Int) (delivery : DeliveredMsg) : ProduceResult :=
  match producerPtr, jtopic, jvalue with
  | 0, _, _ => .validationError "Invalid arguments"
  | _, none, _ => .validationError "Invalid arguments"
  | _, _, none => .validationError "Invalid arguments"
  | _ + 1, some topic, some value =>
    let err := enqueue ⟨topic, some jpartition, jkey, value⟩
    if err ≠ 0 then .brokerError (err2str err)
    else if delivery.err ≠ 0 then .brokerError (err2str delivery.err)
    else .receipt delivery.partition delivery.offset

/-- `RD_KAFKA_RESP_ERR__PARTITION_EOF` from rdkafka.h. -/
def PARTITION_EOF : Int := -191

/-- What `rd_kafka_consumer_poll` hands back: NULL on timeout, or a
message object with its error code, error text, key pointer/length
(modelled as an optional byte list: `none` = null pointer), payload
pointer/length, topic name, partition and offset. -/
inductive PollInput
  | nullMsg
  | msg (err : Int) (errstr : String) (key : Option (List Nat))
      (payload : Option (List Nat)) (topic : String)
      (partition : Int) (offset : Int)
deriving DecidableEq, Repr

/-- Result of a poll call: a bare null return (no exception), a classified
throw, or a materialized `KafkaMessage`. -/
inductive PollResult
  | nullReturn
  | validationError (msg : String)
  | brokerError (msg : String)
  | message (key : Option (List Nat)) (value : Option (List Nat))
      (topic : String) (partition : Int) (offset : Int)
deriving DecidableEq, Repr

/-- How `pollMessage` materializes a key or payload into a Java byte
array: an array is created only when the pointer is non-null AND the
length is positive (lines 782 and 788); otherwise the field is left as a
null reference. -/
def surfacedBytes : Option (List Nat) → Option (List Nat)
  | some k => if 0 < k.length then some k else none
  | none => none

/-- Observable trace of a poll call: the returned result and whether
`rd_kafka_message_destroy` was invoked on the message before returning. -/
structure PollTrace where
  result : PollResult
  msgDestroyed : Bool
deriving DecidableEq, Repr

/-- Embedding of `Java_..._RdKafka_pollMessage`
(`nativelib.cpp` lines 729-810).  NULL from the poll means timeout →
null return.  A set error code: `RD_KAFKA_RESP_ERR__PARTITION_EOF` →
destroy the message, null return (lines 752-756); any other error →
destroy and throw the message's error text.  Otherwise the `KafkaMessage`
is built: the key array is created only when the key pointer is non-null
and its length is positive (line 782), likewise the value (line 788), and
the message is destroyed after copying.  JNI class/constructor lookup is
modelled as succeeding. -/
def pollMessage (consumerPtr : Nat) (input : PollInput) : PollTrace :=
  if consumerPtr = 0 then ⟨.validationError "Consumer pointer is null", false⟩
  else
    match input with
    | .nullMsg => ⟨.nullReturn, false⟩
    | .msg err errstr key payload topic partition offset =>
      if err ≠ 0 then
        if err = PARTITION_EOF then ⟨.nullReturn, true⟩
        else ⟨.brokerError errstr, true⟩
      else
        ⟨.message (surfacedBytes key) (surfacedBytes payload) topic partition
          offset, true⟩

/-- Live-consumer state visible to this layer: the effective
`auto.offset.reset` of the configuration the consumer was created with. -/
structure ConsumerState where
  offsetReset : String
deriving DecidableEq, Repr

/-- Observable trace of a `subscribe` call: outcome, the consumer's state
after the call, the settings applied to the fresh per-call conf, the user
pointer stored on that conf by `rd_kafka_conf_set_opaque`, whether the
fresh conf was destroyed, the partition list passed to
`rd_kafka_subscribe` (`none` when subscription was never attempted), and
whether the partition list was destroyed. -/
structure SubscribeTrace where
  outcome : KOutcome
  consumerAfter : ConsumerState
  freshConfSettings : List (String × String)
  freshConfUserPtr : Option Nat
  freshConfDestroyed : Bool
  subscribedList : Option (List (String × Int))
  topicsDestroyed : Bool
deriving DecidableEq, Repr

/-- Embedding of `Java_..._RdKafka_subscribe`
(`nativelib.cpp` lines 626-683).  A fresh `rd_kafka_conf_t` is created and
`auto.offset.reset` is set on it (default `"latest"`); on rejection the
conf is destroyed and the rejection text thrown.  Otherwise
`rd_kafka_conf_set_opaque(conf, consumer)` merely stores the consumer
pointer as the fresh conf's user pointer — it does not apply any setting
to the live consumer, whose state is returned unchanged — and the fresh
conf is never destroyed on this path.  A single-topic partition list with
`RD_KAFKA_PARTITION_UA` (-1) is built, `rd_kafka_subscribe` is called, the
list is destroyed unconditionally, and a broker error is thrown as
`rd_kafka_err2str(err)`. -/
def subscribe (consumerPtr : Nat) (consumer : ConsumerState)
    (jtopic joffsetStrategy : Option String)
    (confSet : String → Option String → ConfResult)
    (err2str : Int → String) (subscribeErr : Int) : SubscribeTrace :=
  if consumerPtr = 0 then
    ⟨.validationError "Consumer pointer is null", consumer, [], none, false,
      none, false⟩
  else
    match jtopic with
    | none => ⟨.validationError "Topic cannot be null", consumer, [], none,
        false, none, false⟩
    | some topic =>
      match confSet "auto.offset.reset" (some (joffsetStrategy.getD "latest")) with
      | .rejected m => ⟨.configError m, consumer, [], none, true, none, false⟩
      | .ok =>
        if subscribeErr ≠ 0 then
          ⟨.brokerError (err2str subscribeErr), consumer,
            [("auto.offset.reset", joffsetStrategy.getD "latest")],
            some consumerPtr, false, some [(topic, -1)], true⟩
        else
          ⟨.ok, consumer,
            [("auto.offset.reset", joffsetStrategy.getD "latest")],
            some consumerPtr, false, some [(topic, -1)], true⟩

/-- Observable trace of a `closeConsumer` call. -/
structure CloseTrace where
  closeCalled : Bool
  threw : Bool
  destroyed : Bool
deriving DecidableEq, Repr

/-- Embedding of `Java_..._RdKafka_closeConsumer`
(`nativelib.cpp` lines 813-833).  A null pointer returns silently.
Otherwise `rd_kafka_consumer_close` is called; its error result is bound
and examined but the failure branch is empty (lines 827-829: log-only
comment, no throw), and `rd_kafka_destroy` then runs unconditionally. -/
def closeConsumer (consumerPtr : Nat) (closeErr : Int) : CloseTrace :=
  if consumerPtr = 0 then ⟨false, false, false⟩
  else
    -- closeErr ≠ 0 is checked in the source but the branch body is empty
    ⟨true, false, true⟩

/-- Embedding of `Java_..._RdKafka_flushProducer`
(`nativelib.cpp` lines 924-942): a broker-reported flush failure is
propagated as a thrown broker error — in contrast to `closeConsumer`,
which absorbs its close error. -/
def flushProducer (producerPtr : Nat) (err2str : Int → String)
    (flushErr : Int) : KOutcome :=
  if producerPtr = 0 then .validationError "Producer pointer is null"
  else if flushErr ≠ 0 then .brokerError (err2str flushErr)
  else .ok

/-- Configuration oracle that rejects exactly the CA-path property. -/
def rejectSSLCa : String → Option String → ConfResult :=
  fun k _ =>
    if k = "ssl.ca.location" then ConfResult.rejected "ca path rejected"
    else ConfResult.ok

/-!
Model of the `DeliveryState` waiter protocol (claim about
`delivery_report_cb`, lines 250-273, and the wait loop of
`produceMessageBytes`, lines 419-427).

The callback performs, in program order: the three field writes (error
code, partition, offset) under the waiter's mutex, then the release-store
of the completion flag.  The waiter loop performs no writes to the state.
Cross-thread visibility ordering (the release store paired with the
flag-load the waiter performs) is modelled by a sequentially interleaved
execution of the callback's write events: a reader's observation point
after `k` callback events sees the state `cbRun m k`.  Because the flag
store is the last event of the callback's program, observing
`done = true` entails that all three field writes already happened.
-/

/-- Shared waiter state: the `DeliveryState` struct (lines 250-257),
with its initial values `done = false`, `err = RD_KAFKA_RESP_ERR_NO_ERROR`,
`partition = -1`, `offset = -1`. -/
structure DeliveryState where
  done : Bool
  err : Int
  partition : Int
  offset : Int
deriving DecidableEq, Repr

/-- Initial waiter state. -/
def initDeliveryState : DeliveryState := ⟨false, 0, -1, -1⟩

/-- The callback's primitive events on the shared waiter state, in the
order `delivery_report_cb` performs them: write error code, write
partition, write offset (all under the mutex), then store the completion
flag with release ordering. -/
inductive CbEv
  | wErr
  | wPart
  | wOff
  | storeDone
deriving DecidableEq, Repr

/-- Program order of `delivery_report_cb`'s events (lines 264-271). -/
def cbProgram : List CbEv := [.wErr, .wPart, .wOff, .storeDone]

/-- Effect of one callback event for delivered message `m`. -/
def cbApply (m : DeliveredMsg) (s : DeliveryState) : CbEv → DeliveryState
  | .wErr => { s with err := m.err }
  | .wPart => { s with partition := m.partition }
  | .wOff => { s with offset := m.offset }
  | .storeDone => { s with done := true }

/-- Waiter state visible after the first `k` callback events have
executed (the waiter loop itself writes nothing). -/
def cbRun (m : DeliveredMsg) (k : Nat) : DeliveryState :=
  (cbProgram.take k).foldl (cbApply m) initDeliveryState

/-- Primitive operations of one iteration of the blocking wait loop of
`produceMessageBytes` (lines 419-427), tracking only the waiter's mutex:
the `rd_kafka_poll` call, acquiring the `unique_lock`, the completion
check, `cv.wait_for` (which releases the mutex while waiting and
reacquires it before returning), and the `unique_lock` destructor. -/
inductive WOp
  | pollCall
  | lockMutex
  | checkDone
  | cvRelease
  | cvReacquire
  | unlockMutex
deriving DecidableEq, Repr

/-- A non-final loop iteration: poll, lock, check (done still false),
wait on the condition variable (release + reacquire), unlock at the end
of the iteration scope. -/
def waitIter : List WOp :=
  [.pollCall, .lockMutex, .checkDone, .cvRelease, .cvReacquire, .unlockMutex]

/-- The final iteration: poll, lock, check observes `done`, `break`, and
the `unique_lock` destructor releases the mutex. -/
def waitIterLast : List WOp := [.pollCall, .lockMutex, .checkDone, .unlockMutex]

/-- Whether the waiter's mutex is held after executing one operation. -/
def lockAfter (held : Bool) : WOp → Bool
  | .lockMutex => true
  | .cvReacquire => true
  | .cvRelease => false
  | .unlockMutex => false
  | _ => held

/-- `true` when some `rd_kafka_poll` call in the operation list executes
while the waiter's mutex is held. -/
def pollWhileLocked : Bool → List WOp → Bool
  | _, [] => false
  | held, WOp.pollCall :: rest => held || pollWhileLocked held rest
  | held, op :: rest => pollWhileLocked (lockAfter held op) rest

/-- The wait loop's full operation trace: `n` non-final iterations
followed by the final one. -/
def waitTrace (n : Nat) : List WOp :=
  (List.replicate n waitIter).flatten ++ waitIterLast

/-!
Theorems.
-/

/-- C1: for every send whose enqueue succeeded and whose delivery
callback has recorded result `d`: if `d.err` is the success code, the
call returns a receipt whose partition and offset are exactly the ones
the callback stored in the waiter; any other recorded code fails with a
broker error carrying the broker's error text for that code and no
receipt; and if enqueue itself is rejected, the call fails immediately
with a broker error carrying the text of the rejection code, the waiter
being discarded without ever completing — the result is independent of
any delivery result. -/
theorem produce_send_outcome (err2str : Int → String) (p : Nat)
    (t : String) (k : Option (List Nat)) (v : List Nat)
    (enqueue : ProduceReq → Int) (d : DeliveredMsg) (hp : p ≠ 0) :
    (enqueue ⟨t, none, k, v⟩ = 0 → d.err = 0 →
      produceMessageBytes err2str p (some t) k (some v) enqueue d
        = ProduceResult.receipt d.partition d.offset) ∧
    (enqueue ⟨t, none, k, v⟩ = 0 → d.err ≠ 0 →
      produceMessageBytes err2str p (some t) k (some v) enqueue d
        = ProduceResult.brokerError (err2str d.err)) ∧
    (enqueue ⟨t, none, k, v⟩ ≠ 0 →
      ∀ d2 : DeliveredMsg,
        produceMessageBytes err2str p (some t) k (some v) enqueue d2
          = ProduceResult.brokerError (err2str (enqueue ⟨t, none, k, v⟩))) := by
  obtain ⟨n, rfl⟩ : ∃ n, p = n + 1 := ⟨p - 1, by omega⟩
  refine ⟨fun he hd => ?_, fun he hd => ?_, fun he d2 => ?_⟩
  · simp [produceMessageBytes, he, hd]
  · simp [produceMessageBytes, he, hd]
  · simp [produceMessageBytes, he]

/-- Witness for C1 at a concrete input. -/
theorem produce_send_outcome_witness :
    produceMessageBytes err2strM 1 (some "t") none (some [1, 2])
        (fun _ => 0) ⟨0, 3, 7⟩
      = ProduceResult.receipt 3 7 :=
  (produce_send_outcome err2strM 1 "t" none [1, 2] (fun _ => 0) ⟨0, 3, 7⟩
    (by decide)).1 rfl rfl

/-- C2 counterexample: with an oracle that rejects exactly the `acks`
property and accepts every other one, construction does not abort:
the call returns a handle and continues past the `acks` application,
because the source (line 320) discards the result of applying
`acks = all`.  This refutes the claim that every property in the applied
sequence — which includes the delivery-acknowledgment mode — aborts
construction with a ConfigError on rejection. -/
theorem createProducerMTLS_acks_rejection_ignored :
    (createProducerMTLS (some "b:9092") (some "/ca.pem") (some "/cert.pem")
        (some "/key.pem") rejectAcks true "").outcome = KOutcome.ok ∧
    (createProducerMTLS (some "b:9092") (some "/ca.pem") (some "/cert.pem")
        (some "/key.pem") rejectAcks true "").attempted
      = ["bootstrap.servers", "security.protocol", "ssl.ca.location",
         "ssl.certificate.location", "ssl.key.location", "acks"] := by
  constructor <;> rfl

/-- C2 (amended): each of the five checked properties — bootstrap
endpoints, security mode, CA path, client certificate path, client key
path — aborts construction on rejection with a ConfigError carrying that
property's rejection message, releases the configuration object, and
prevents every later property from being attempted.  (The
delivery-acknowledgment property `acks` is applied with its result
ignored, so its rejection does not abort construction.) -/
theorem createProducerMTLS_fail_fast
    (brokers caCert clientCert clientKey : Option String)
    (confSet : String → Option String → ConfResult)
    (newOk : Bool) (newErrstr : String) (i : Nat) (m : String)
    (hi : i < 5)
    (hok : ∀ j, j < i → confSet (producerPropName j)
        (producerPropVal brokers caCert clientCert clientKey j)
        = ConfResult.ok)
    (hrej : confSet (producerPropName i)
        (producerPropVal brokers caCert clientCert clientKey i)
        = ConfResult.rejected m) :
    createProducerMTLS brokers caCert clientCert clientKey confSet newOk
        newErrstr
      = ⟨KOutcome.configError m,
         (List.range (i + 1)).map producerPropName, true⟩ := by
  interval_cases i
  · simp only [producerPropName, producerPropVal] at hrej
    simp [createProducerMTLS, hrej, List.range_succ, producerPropName]
  · have h0 := hok 0 (by omega)
    simp only [producerPropName, producerPropVal] at h0 hrej
    simp [createProducerMTLS, h0, hrej, List.range_succ, producerPropName]
  · have h0 := hok 0 (by omega)
    have h1 := hok 1 (by omega)
    simp only [producerPropName, producerPropVal] at h0 h1 hrej
    simp [createProducerMTLS, h0, h1, hrej, List.range_succ, producerPropName]
  · have h0 := hok 0 (by omega)
    have h1 := hok 1 (by omega)
    have h2 := hok 2 (by omega)
    simp only [producerPropName, producerPropVal] at h0 h1 h2 hrej
    simp [createProducerMTLS, h0, h1, h2, hrej, List.range_succ,
      producerPropName]
  · have h0 := hok 0 (by omega)
    have h1 := hok 1 (by omega)
    have h2 := hok 2 (by omega)
    have h3 := hok 3 (by omega)
    simp only [producerPropName, producerPropVal] at h0 h1 h2 h3 hrej
    simp [createProducerMTLS, h0, h1, h2, h3, hrej, List.range_succ,
      producerPropName]

/-- Witness for the amended C2 at a concrete input: the CA-path property
is rejected, construction aborts with its message, the configuration is
destroyed, and neither certificate nor key property is attempted. -/
theorem createProducerMTLS_fail_fast_witness :
    createProducerMTLS (some "b") (some "/ca") (some "/cert") (some "/key")
        rejectSSLCa true ""
      = ⟨KOutcome.configError "ca path rejected",
         ["bootstrap.servers", "security.protocol", "ssl.ca.location"],
         true⟩ := by
  simpa using createProducerMTLS_fail_fast (some "b") (some "/ca")
    (some "/cert") (some "/key") rejectSSLCa true "" 2 "ca path rejected"
    (by omega) (fun j hj => by interval_cases j <;> rfl) (by rfl)

/-- C3 counterexample: a broker-reported end-of-partition message and a
timeout both produce the same bare null return (`nullReturn`): there is
no distinct EndOfPartition marker, so the caller cannot distinguish
end-of-partition from Empty — refuting the claim that the four outcomes
are distinguishable and that EndOfPartition is never surfaced as Empty. -/
theorem pollMessage_eof_indistinguishable_from_empty :
    pollMessage 1 (PollInput.msg PARTITION_EOF "partition EOF" none none
        "t" 0 5)
      = ⟨PollResult.nullReturn, true⟩ ∧
    pollMessage 1 PollInput.nullMsg = ⟨PollResult.nullReturn, false⟩ ∧
    (pollMessage 1 (PollInput.msg PARTITION_EOF "partition EOF" none none
        "t" 0 5)).result
      = (pollMessage 1 PollInput.nullMsg).result := by
  refine ⟨rfl, rfl, rfl⟩

/-- C3 (amended): poll's outcomes are: a timeout yields a bare null
return (not an error); a broker-reported end-of-partition yields the
same bare null return with the message resource released first — it is
surfaced neither as an error nor as a message, but it is
indistinguishable from the timeout case at the interface; any other
reported error yields a broker error carrying the broker's error text
with the message resource released before returning; otherwise a message
is returned. -/
theorem pollMessage_outcomes (c : Nat) (err : Int) (errstr : String)
    (key payload : Option (List Nat)) (topic : String)
    (partition offset : Int) (hc : c ≠ 0) :
    (pollMessage c PollInput.nullMsg = ⟨PollResult.nullReturn, false⟩) ∧
    (err = PARTITION_EOF →
      pollMessage c (.msg err errstr key payload topic partition offset)
        = ⟨PollResult.nullReturn, true⟩) ∧
    (err ≠ 0 → err ≠ PARTITION_EOF →
      pollMessage c (.msg err errstr key payload topic partition offset)
        = ⟨PollResult.brokerError errstr, true⟩) ∧
    (err = 0 →
      pollMessage c (.msg err errstr key payload topic partition offset)
        = ⟨PollResult.message (surfacedBytes key) (surfacedBytes payload)
            topic partition offset, true⟩) := by
  refine ⟨by simp [pollMessage, hc], fun he => ?_, fun h0 he => ?_,
    fun h0 => ?_⟩
  · subst he
    simp [pollMessage, hc, PARTITION_EOF]
  · simp [pollMessage, hc, h0, he]
  · subst h0
    simp [pollMessage, hc]

/-- Witness for the amended C3 at concrete inputs. -/
theorem pollMessage_outcomes_witness :
    pollMessage 2 (PollInput.msg (-1) "broker down" none none "t" 0 5)
      = ⟨PollResult.brokerError "broker down", true⟩ :=
  (pollMessage_outcomes 2 (-1) "broker down" none none "t" 0 5
    (by decide)).2.2.1 (by decide) (by decide)

/-- C4 (code bug): the supplied offset policy has no effect.  At the
failing input — a consumer whose effective `auto.offset.reset` is
`latest`, subscribed with policy `earliest` — the call succeeds and
requests group subscription for the single-topic list with the
broker-assigned partition (-1), but the consumer's effective policy is
unchanged: the fresh per-call configuration holding `earliest` only had
the consumer pointer stored on it by `rd_kafka_conf_set_opaque` (despite
the source comment "Apply configuration to consumer") and is then
abandoned without being applied or destroyed.  The second conjunct shows
the consumer state is unchanged on every path. -/
theorem subscribe_offset_policy_has_no_effect :
    (subscribe 7 ⟨"latest"⟩ (some "chat") (some "earliest") allOk err2strM 0
      = ⟨KOutcome.ok, ⟨"latest"⟩, [("auto.offset.reset", "earliest")],
         some 7, false, some [("chat", -1)], true⟩) ∧
    (∀ (ptr : Nat) (cs : ConsumerState) (jtopic joffs : Option String)
        (confSet : String → Option String → ConfResult)
        (e2s : Int → String) (serr : Int),
      (subscribe ptr cs jtopic joffs confSet e2s serr).consumerAfter = cs) := by
  constructor
  · rfl
  · intro ptr cs jtopic joffs confSet e2s serr
    unfold subscribe
    repeat' split
    all_goals rfl

/-- Helper for C5: the consumer configuration chain never throws the
fixed validation strings — every throw on it is a config, connection or
broker classified error. -/
theorem consumerConfChain_no_validationError (b g ca cert key offs : String)
    (confSet : String → Option String → ConfResult)
    (newOk : Bool) (newErrstr : String) (m : String) :
    (consumerConfChain b g ca cert key offs confSet newOk newErrstr).outcome
      ≠ KOutcome.validationError m := by
  unfold consumerConfChain
  repeat' split
  all_goals simp

/-- Helper for C5: producer creation performs no validation at all — its
outcome is never a ValidationError. -/
theorem createProducerMTLS_no_validationError
    (brokers caCert clientCert clientKey : Option String)
    (confSet : String → Option String → ConfResult)
    (newOk : Bool) (newErrstr : String) (m : String) :
    (createProducerMTLS brokers caCert clientCert clientKey confSet newOk
        newErrstr).outcome
      ≠ KOutcome.validationError m := by
  unfold createProducerMTLS
  repeat' split
  all_goals simp

/-- C5 counterexample: (i) a consumer-creation call with all three TLS
paths absent (zero of three present) fails with the validation error
"Certificate paths cannot be null" — the claim says that with zero
present this validation dimension passes; (ii) a producer-creation call
with exactly one of the three paths present does not fail with a
ValidationError at all (with an accepting configuration library it
returns a handle) — the claim says one-of-three always fails before any
handle is created. -/
theorem tls_trio_counterexample :
    (createConsumerMTLS (some "b:9092") (some "grp") none none none none
        allOk true "").outcome
      = KOutcome.validationError "Certificate paths cannot be null" ∧
    (createProducerMTLS (some "b:9092") (some "/ca.pem") none none
        allOk true "").outcome = KOutcome.ok := by
  constructor <;> rfl

/-- C5 (amended): in `createConsumerMTLS` the TLS material is
all-or-nothing in the present direction only: if any of the three paths
{CA, client certificate, client key} is absent — including when all
three are absent — the call fails with a ValidationError before any
configuration or handle work; when all three are present (emptiness is
not checked) that validation dimension passes and no ValidationError is
possible.  `createProducerMTLS` performs no TLS presence validation at
all: its outcome is never a ValidationError. -/
theorem tls_trio_validation
    (b g : String) (caCert clientCert clientKey offsetStrategy : Option String)
    (confSet : String → Option String → ConfResult)
    (newOk : Bool) (newErrstr : String) :
    ((caCert = none ∨ clientCert = none ∨ clientKey = none) →
      createConsumerMTLS (some b) (some g) caCert clientCert clientKey
          offsetStrategy confSet newOk newErrstr
        = ⟨KOutcome.validationError "Certificate paths cannot be null", [],
           false⟩) ∧
    (∀ ca cert key m,
      (createConsumerMTLS (some b) (some g) (some ca) (some cert) (some key)
          offsetStrategy confSet newOk newErrstr).outcome
        ≠ KOutcome.validationError m) ∧
    (∀ (brokers caC cliC cliK : Option String) (m : String),
      (createProducerMTLS brokers caC cliC cliK confSet newOk
          newErrstr).outcome
        ≠ KOutcome.validationError m) := by
  refine ⟨fun h => ?_, fun ca cert key m => ?_, fun brokers caC cliC cliK m =>
    createProducerMTLS_no_validationError brokers caC cliC cliK confSet newOk
      newErrstr m⟩
  · rcases caCert with _ | ca <;> rcases clientCert with _ | cc <;>
      rcases clientKey with _ | ck <;> simp_all [createConsumerMTLS]
  · simpa [createConsumerMTLS] using
      consumerConfChain_no_validationError b g ca cert key
        (offsetStrategy.getD "latest") confSet newOk newErrstr m

/-- Witness for the amended C5 at a concrete input. -/
theorem tls_trio_validation_witness :
    createConsumerMTLS (some "b") (some "g") none (some "/cert")
        (some "/key") none allOk true ""
      = ⟨KOutcome.validationError "Certificate paths cannot be null", [],
         false⟩ :=
  (tls_trio_validation "b" "g" none (some "/cert") (some "/key") none allOk
    true "").1 (Or.inl rfl)

/-- C6 counterexample: a send with a non-null but empty topic passes the
argument check (which tests only nullness), reaches the broker enqueue,
and — with an accepting enqueue and a successful delivery — returns a
receipt rather than failing with a ValidationError, refuting the claim
that an empty topic fails validation. -/
theorem produce_empty_topic_not_rejected :
    produceMessageBytes err2strM 1 (some "") none (some []) (fun _ => 0)
        ⟨0, 0, 0⟩
      = ProduceResult.receipt 0 0 := by
  rfl

/-- C6 (amended): send fails with the ValidationError
"Invalid arguments" before any broker interaction — the result is
independent of the enqueue oracle and of any delivery result — exactly
when the handle pointer is null, the topic reference is null, or the
value reference is null; whenever all three are non-null (a non-null
empty topic and a zero-length value included) no ValidationError is
possible. -/
theorem produce_validation (err2str : Int → String) (p : Nat)
    (t : Option String) (k : Option (List Nat)) (v : Option (List Nat)) :
    ((p = 0 ∨ t = none ∨ v = none) →
      ∀ (enqueue : ProduceReq → Int) (d : DeliveredMsg),
        produceMessageBytes err2str p t k v enqueue d
          = ProduceResult.validationError "Invalid arguments") ∧
    (p ≠ 0 → t ≠ none → v ≠ none →
      ∀ (enqueue : ProduceReq → Int) (d : DeliveredMsg) (m : String),
        produceMessageBytes err2str p t k v enqueue d
          ≠ ProduceResult.validationError m) := by
  constructor
  · intro h enqueue d
    rcases p with _ | n <;> rcases t with _ | t <;> rcases v with _ | v <;>
      simp_all [produceMessageBytes]
  · intro hp ht hv enqueue d m
    rcases p with _ | n
    · exact absurd rfl hp
    rcases t with _ | t
    · exact absurd rfl ht
    rcases v with _ | v
    · exact absurd rfl hv
    simp only [produceMessageBytes]
    split
    · simp
    · split <;> simp

/-- Witness for the amended C6 at a concrete input. -/
theorem produce_validation_witness :
    produceMessageBytes err2strM 0 (some "t") none (some []) (fun _ => 0)
        ⟨0, 0, 0⟩
      = ProduceResult.validationError "Invalid arguments" :=
  (produce_validation err2strM 0 (some "t") none (some [])).1 (Or.inl rfl)
    (fun _ => 0) ⟨0, 0, 0⟩

/-- C7: the delivery-waiter protocol.  In the event model of
`delivery_report_cb` (writes of error code, partition and offset in
program order before the completion-flag store) and of the
`produceMessageBytes` wait loop: (i) once the callback's program has run,
the waiter holds the flag and the fully populated result; (ii) the flag
is false at every point before the flag store — the flag transitions
false to true exactly once, at the callback's final event, and nothing
else in the model writes the state; (iii) any observation of
`done = true` sees the fully populated result recorded by the callback,
the three writes having happened before the store; and (iv) on no
iteration of the wait loop is the `rd_kafka_poll` event-driving call
executed while the waiter's mutex is held. -/
theorem delivery_waiter_protocol :
    (∀ (m : DeliveredMsg) (k : Nat), 4 ≤ k →
      cbRun m k = ⟨true, m.err, m.partition, m.offset⟩) ∧
    (∀ (m : DeliveredMsg) (k : Nat), k < 4 → (cbRun m k).done = false) ∧
    (∀ (m : DeliveredMsg) (k : Nat), (cbRun m k).done = true →
      cbRun m k = ⟨true, m.err, m.partition, m.offset⟩) ∧
    (∀ n : Nat, pollWhileLocked false (waitTrace n) = false) := by
  have hfull : ∀ (m : DeliveredMsg) (k : Nat), 4 ≤ k →
      cbRun m k = ⟨true, m.err, m.partition, m.offset⟩ := by
    intro m k hk
    obtain ⟨n, rfl⟩ : ∃ n, k = n + 4 := ⟨k - 4, by omega⟩
    have hlen : cbProgram.length ≤ n + 4 := by simp [cbProgram]
    simp [cbRun, List.take_of_length_le hlen, cbProgram, cbApply,
      initDeliveryState]
  have hbefore : ∀ (m : DeliveredMsg) (k : Nat), k < 4 →
      (cbRun m k).done = false := by
    intro m k hk
    interval_cases k <;> rfl
  have hiter : ∀ rest : List WOp,
      pollWhileLocked false (waitIter ++ rest)
        = pollWhileLocked false rest := fun rest => rfl
  have hloop : ∀ n : Nat, pollWhileLocked false (waitTrace n) = false := by
    intro n
    induction n with
    | zero => rfl
    | succ n ih =>
      have hstep : waitTrace (n + 1) = waitIter ++ waitTrace n := by
        simp [waitTrace, List.replicate_succ]
      rw [hstep, hiter]
      exact ih
  refine ⟨hfull, hbefore, fun m k h => ?_, hloop⟩
  by_cases hk : 4 ≤ k
  · exact hfull m k hk
  · exact absurd h (by simp [hbefore m k (by omega)])

/-- Witness for C7 at concrete inputs. -/
theorem delivery_waiter_protocol_witness :
    cbRun ⟨0, 3, 7⟩ 4 = ⟨true, 0, 3, 7⟩ ∧
    (cbRun ⟨0, 3, 7⟩ 2).done = false ∧
    pollWhileLocked false (waitTrace 2) = false :=
  ⟨delivery_waiter_protocol.1 ⟨0, 3, 7⟩ 4 (by omega),
   delivery_waiter_protocol.2.1 ⟨0, 3, 7⟩ 2 (by omega),
   delivery_waiter_protocol.2.2.2 2⟩

/-- C8: the partition-targeted send is identical to the plain send
except that the enqueue request carries the explicit partition index:
for every input and every broker behaviour, its result equals the plain
send's result under the enqueue oracle that adds the partition to the
request — validation, enqueue error mapping, completion mapping and
waiter lifecycle are all shared. -/
theorem produceToPartition_refines_produce (err2str : Int → String)
    (p : Nat) (t : Option String) (part : Int) (jkey : Option (List Nat))
    (jvalue : Option (List Nat)) (enqueue : ProduceReq → Int)
    (d : DeliveredMsg) :
    produceMessageBytesToPartition err2str p t part jkey jvalue enqueue d
      = produceMessageBytes err2str p t jkey jvalue
          (fun r => enqueue { r with partition := some part }) d := by
  rcases p with _ | n <;> rcases t with _ | t <;> rcases jvalue with _ | v <;>
    simp [produceMessageBytes, produceMessageBytesToPartition]

/-- C9: for every non-null handle, `closeConsumer` never raises —
whatever error code the broker-side close step (commit offsets, leave
group) reports, it is absorbed — and the native connection is released
unconditionally afterwards.  The second conjunct contrasts this with
`flushProducer`, which propagates a broker-reported failure as a thrown
broker error: the close-step absorption is the deliberate exception. -/
theorem closeConsumer_absorbs_close_error (p : Nat) (closeErr : Int)
    (hp : p ≠ 0) :
    closeConsumer p closeErr = ⟨true, false, true⟩ ∧
    (∀ (e2s : Int → String) (e : Int), e ≠ 0 →
      flushProducer p e2s e = KOutcome.brokerError (e2s e)) := by
  constructor
  · simp [closeConsumer, hp]
  · intro e2s e he
    simp [flushProducer, hp, he]

/-- Witness for C9 at a concrete input. -/
theorem closeConsumer_absorbs_close_error_witness :
    closeConsumer 5 (-172) = ⟨true, false, true⟩ :=
  (closeConsumer_absorbs_close_error 5 (-172) (by decide)).1

/-- C10: a key or payload of length zero is surfaced by poll as a null
reference — identical to an absent key or payload — so at the consumer
interface a zero-length payload is indistinguishable from an absent one;
the producer interface, by contrast, accepts a zero-length value (its
validation tests only nullness, so no ValidationError is possible) while
an absent value is rejected with "Invalid arguments". -/
theorem poll_zero_length_surfaced_absent (c : Nat) (errstr topic : String)
    (partition offset : Int) (hc : c ≠ 0) :
    ((pollMessage c (.msg 0 errstr (some []) (some []) topic partition
        offset)).result
      = PollResult.message none none topic partition offset) ∧
    (pollMessage c (.msg 0 errstr (some []) (some []) topic partition offset)
      = pollMessage c (.msg 0 errstr none none topic partition offset)) ∧
    (∀ k : List Nat,
      pollMessage c (.msg 0 errstr (some k) (some []) topic partition offset)
        = pollMessage c (.msg 0 errstr (some k) none topic partition offset)) ∧
    (∀ (err2str : Int → String) (t : String) (kk : Option (List Nat))
        (enqueue : ProduceReq → Int) (d : DeliveredMsg) (m : String),
      produceMessageBytes err2str c (some t) kk (some []) enqueue d
        ≠ ProduceResult.validationError m) ∧
    (∀ (err2str : Int → String) (t : Option String) (kk : Option (List Nat))
        (enqueue : ProduceReq → Int) (d : DeliveredMsg),
      produceMessageBytes err2str c t kk none enqueue d
        = ProduceResult.validationError "Invalid arguments") := by
  refine ⟨?_, ?_, ?_, ?_, ?_⟩
  · simp [pollMessage, hc, surfacedBytes]
  · simp [pollMessage, hc, surfacedBytes]
  · intro k
    simp [pollMessage, hc, surfacedBytes]
  · intro err2str t kk enqueue d m
    obtain ⟨n, rfl⟩ : ∃ n, c = n + 1 := ⟨c - 1, by omega⟩
    simp only [produceMessageBytes]
    split
    · simp
    · split <;> simp
  · intro err2str t kk enqueue d
    rcases c with _ | n
    · exact absurd rfl hc
    rcases t with _ | t <;> rfl

/-- Witness for C10 at a concrete input. -/
theorem poll_zero_length_surfaced_absent_witness :
    (pollMessage 3 (.msg 0 "" (some []) (some []) "t" 1 9)).result
      = PollResult.message none none "t" 1 9 :=
  (poll_zero_length_surfaced_absent 3 "" "t" 1 9 (by decide)).1

end ChatOverKafka
